import Mathlib

/-!
Verification development for the write-ingest core of the influxdb_iox
ingester (`ingester2` write path, WAL, and startup initialisation).

The Rust sources are embedded shallowly: pure record construction becomes
Lean structures; fallible calls return `Except`; the effects a component
performs (WAL appends, inner-sink calls, catalog queries, task spawns) are
made observable as explicit event traces so that ordering and
nothing-else-happened properties can be stated.  Components whose
implementation is not part of the extracted sources (the `wal` crate, the
timestamp oracle, the WAL replay routine, the sequence-assignment front of
the apply chain) are modelled from the specification, calibrated against
the end-to-end tests that are part of the sources; each such definition
carries a doc comment starting with `Modelled from the spec:`.
-/

namespace Iox

/-! ## Core DML data model (from `dml` crate usage in `wal_sink.rs`) -/

/-- Metadata attached to a DML operation: the optionally-assigned sequence
number (`op.meta().sequence()` in the source). -/
structure DmlMeta where
  sequence : Option Nat
deriving DecidableEq, Repr

/-- A DML write operation.  The table/column payload is irrelevant to the
claims under verification and is carried as an opaque tag, together with
the namespace id and metadata that `wal_sink.rs` actually inspects. -/
structure DmlWrite where
  namespaceId : Nat
  meta : DmlMeta
  payload : Nat
deriving DecidableEq, Repr

/-- A DML delete operation (never encoded by the WAL appender). -/
structure DmlDelete where
  namespaceId : Nat
  meta : DmlMeta
  payload : Nat
deriving DecidableEq, Repr

/-- `DmlOperation`: either a write or a delete (from the `dml` crate). -/
inductive DmlOperation
  | write (w : DmlWrite)
  | delete (d : DmlDelete)
deriving DecidableEq, Repr

/-- `op.meta()` — the metadata of either kind of operation. -/
def DmlOperation.meta : DmlOperation → DmlMeta
  | .write w => w.meta
  | .delete d => d.meta

/-- `op.namespace_id()`. -/
def DmlOperation.namespaceId : DmlOperation → Nat
  | .write w => w.namespaceId
  | .delete d => d.namespaceId

/-- An opaque error from the `wal` crate (`wal::Error`). -/
structure WalError where
  code : Nat
deriving DecidableEq, Repr

/-- An opaque error from the inner `DmlSink` (the buffer tree). -/
structure BufferError where
  code : Nat
deriving DecidableEq, Repr

/-- `DmlError`, as used by `WalSink::apply`: a WAL append failure converted
via `From<wal::Error>` (the `?` operator), or an inner-sink failure
converted via `map_err(Into::into)`. -/
inductive DmlError
  | wal (e : WalError)
  | buffer (e : BufferError)
deriving DecidableEq, Repr

/-! ## `WalSink::apply` (from `src/ingester2/src/wal/wal_sink.rs`, lines 39-56)

The two awaited effects of the method body are recorded as an event trace:
a successful WAL append and an invocation of the inner sink.  The WAL and
the inner sink are passed as behaviours (result-valued functions), exactly
as the Rust code is generic over `W: WalAppender` and `T: DmlSink`. -/

/-- An observable effect performed by `WalSink::apply`. -/
inductive Event
  | walAppendOk (op : DmlOperation)
  | innerApply (op : DmlOperation)
deriving DecidableEq, Repr

deriving instance DecidableEq for Except

/-- The value and the effect trace produced by one `WalSink::apply` call. -/
structure ApplyOutcome where
  result : Except DmlError Unit
  events : List Event
deriving DecidableEq, Repr

/-- `WalSink::apply` (wal_sink.rs lines 39-56): first `self.wal.append(&op).await?`
— a failure is converted into `DmlError` and returned, performing nothing
else; on success `self.inner.apply(op).await.map_err(Into::into)` runs and
its result (error included) is returned to the caller. -/
def WalSink.apply (walB : DmlOperation → Except WalError Unit)
    (innerB : DmlOperation → Except BufferError Unit)
    (op : DmlOperation) : ApplyOutcome :=
  match walB op with
  | .error e => { result := .error (DmlError.wal e), events := [] }
  | .ok _ =>
      { result := (innerB op).mapError DmlError.buffer
        events := [.walAppendOk op, .innerApply op] }

/-- How the caller drives the `WalSink::apply` future: polls it to
completion, or stops polling (drops it) right after the WAL append
completed and before the inner sink's apply is polled. -/
inductive Cancellation
  | run
  | afterAppend
deriving DecidableEq, Repr

/-- `WalSink::apply` under caller cancellation.  The method body is a plain
sequence of two awaits with no spawn, detach or shield (the TODO comment at
wal_sink.rs lines 40-49 records exactly this), so dropping the future
between the first await (WAL append) and the second (inner apply) abandons
the remainder: the append has happened, the inner sink is never invoked,
and no result is returned (`none`). -/
def WalSink.applyCancellable (walB : DmlOperation → Except WalError Unit)
    (innerB : DmlOperation → Except BufferError Unit)
    (op : DmlOperation) : Cancellation → List Event × Option (Except DmlError Unit)
  | .run =>
      let o := WalSink.apply walB innerB op
      (o.events, some o.result)
  | .afterAppend =>
      match walB op with
      | .error _ => ([], none)
      | .ok _ => ([.walAppendOk op], none)

/-! ## Concrete fixtures used by witnesses and counterexamples -/

/-- A concrete sequenced write operation. -/
def opW0 : DmlOperation :=
  .write { namespaceId := 42, meta := { sequence := some 7 }, payload := 0 }

/-- A concrete inner-sink error. -/
def bufErr0 : BufferError := { code := 9 }

/-- A concrete WAL error. -/
def walErr0 : WalError := { code := 3 }

/-! ## `WalAppender for wal::WalWriter` (wal_sink.rs, lines 59-84) -/

/-- The result of `encode_write(namespace_id, w)` (a `DatabaseBatch`): the
canonical encoding of a write, capturing the database id and the write's
table data. -/
structure DatabaseBatch where
  databaseId : Nat
  payload : Nat
deriving DecidableEq, Repr

/-- `encode_write`: encodes a `DmlWrite` for the given namespace id. -/
def encode_write (namespaceId : Nat) (w : DmlWrite) : DatabaseBatch :=
  { databaseId := namespaceId, payload := w.payload }

/-- `sequenced_wal_op::Op`: the op payload of a WAL record (the protobuf
union has write and delete arms; `wal_sink.rs` only ever constructs the
write arm). -/
inductive WalOp
  | write (b : DatabaseBatch)
  | delete (payload : Nat)
deriving DecidableEq, Repr

/-- `SequencedWalOp`: the record handed to `WalWriter::write_op`. -/
structure SequencedWalOp where
  sequence_number : Nat
  op : WalOp
deriving DecidableEq, Repr

/-- Outcome of the appender: either the record it submits to
`write_op`, or a panic (Rust `expect` / `unreachable!`). -/
inductive AppendOutcome
  | ok (rec : SequencedWalOp)
  | panicked (msg : String)
deriving DecidableEq, Repr

/-- Whether the appender panicked. -/
def AppendOutcome.isPanicked : AppendOutcome → Bool
  | .panicked _ => true
  | .ok _ => false

/-- `<wal::WalWriter as WalAppender>::append` (wal_sink.rs lines 61-83):
first `op.meta().sequence().expect("committing unsequenced dml operation to
wal")` — an unsequenced op panics; then the op is matched: a write is
encoded via `encode_write`, a delete hits `unreachable!()`.  On the write
path the built `SequencedWalOp` is submitted to `write_op`. -/
def WalWriter.append (op : DmlOperation) : AppendOutcome :=
  match op.meta.sequence with
  | none => .panicked "committing unsequenced dml operation to wal"
  | some seq =>
      match op with
      | .write w =>
          .ok { sequence_number := seq
                op := .write (encode_write op.namespaceId w) }
      | .delete _ => .panicked "internal error: entered unreachable code"

/-! ## Timestamp oracle and the sequence-assignment front of the apply chain -/

/-- Modelled from the spec: the Timestamp Oracle (§4.1,
`timestamp_oracle.rs` is not among the extracted sources).  A single
counter; `next()` atomically increments and returns prior + 1; constructed
from a high-water mark (init.rs lines 252-256 build it from the maximum
replayed sequence number, defaulting to 0). -/
structure TimestampOracle where
  counter : Nat
deriving DecidableEq, Repr

/-- Oracle constructor (`TimestampOracle::new(v)`). -/
def TimestampOracle.new (v : Nat) : TimestampOracle := { counter := v }

/-- `next()`: returns prior + 1 together with the advanced oracle. -/
def TimestampOracle.next (o : TimestampOracle) : Nat × TimestampOracle :=
  (o.counter + 1, { counter := o.counter + 1 })

/-- Replace an operation's sequence number. -/
def DmlOperation.withSequence : DmlOperation → Nat → DmlOperation
  | .write w, n => .write { w with meta := { sequence := some n } }
  | .delete d, n => .delete { d with meta := { sequence := some n } }

/-- Modelled from the spec: step 1 of the apply chain (§4.6 — "Assign
`op.sequence_number ← C1.next()` if unset"); the rpc write handler that
performs this assignment upstream of `WalSink` is not among the extracted
sources.  An already-sequenced op passes through untouched; an unsequenced
op receives a fresh number from the oracle. -/
def applyChainAssign (o : TimestampOracle) (op : DmlOperation) :
    DmlOperation × TimestampOracle :=
  match op.meta.sequence with
  | some _ => (op, o)
  | none =>
      let p := o.next
      (op.withSequence p.1, p.2)

/-! ## The `wal` crate

Modelled from the spec: the `wal` crate's implementation is not among the
extracted sources — only its end-to-end tests
(`src/wal/tests/end_to_end.rs`) are.  The model follows §4.2 (segment
lifecycle: open → closed → deleted; open assigns `max_existing + 1`;
`closed_segments` ordered by creation; `rotate` swaps the open segment;
`delete` removes a closed segment) and §6 (framing: 8 bytes of
length + crc32c per record before the payload).  Byte sizes are calibrated
against the `crud` test in the sources: a freshly created segment file
holds 16 bytes of header, and the record for the line-protocol payload
`m1,t=foo v=1i 1` occupies 106 bytes on disk (so its length-delimited
encoded payload is 98 bytes). -/

/-- Size of a freshly created segment file (file-type magic and version
header), as pinned by the `crud` test: first append reports
`total_bytes = 122` with `bytes_written = 106`. -/
def segmentHeaderSize : Nat := 16

/-- Per-record framing overhead: `u32 length` + `u32 crc32c` (spec §6). -/
def recordFrameSize : Nat := 8

/-- A record stored in a WAL segment: the sequence number and the byte
length of the length-delimited encoded `SequencedWalOp` payload. -/
structure WalRecord where
  sequence_number : Nat
  payloadLen : Nat
deriving DecidableEq, Repr

/-- Bytes one record occupies on disk: framing plus payload. -/
def WalRecord.diskSize (r : WalRecord) : Nat := recordFrameSize + r.payloadLen

/-- Modelled from the spec: the op built by the end-to-end tests
(`arbitrary_sequenced_wal_op seq` over payload `m1,t=foo v=1i 1`); its
encoded payload is 98 bytes (106 on-disk bytes per the `crud` test, minus
the 8-byte frame). -/
def e2eOp (seq : Nat) : WalRecord :=
  { sequence_number := seq, payloadLen := 98 }

/-- A WAL segment file: its id and its records in append order. -/
structure Segment where
  id : Nat
  records : List WalRecord
deriving DecidableEq, Repr

/-- Total on-disk size of a segment file. -/
def Segment.size (s : Segment) : Nat :=
  segmentHeaderSize + (s.records.map WalRecord.diskSize).sum

/-- A closed-segment descriptor (`ClosedSegment`): id and byte size. -/
structure ClosedSegment where
  id : Nat
  size : Nat
deriving DecidableEq, Repr

/-- The summary returned by `write_op` / `append`. -/
structure WriteSummary where
  total_bytes : Nat
  bytes_written : Nat
deriving DecidableEq, Repr

/-- The WAL: closed segments in creation order plus the one open segment. -/
structure Wal where
  closed : List Segment
  openSeg : Segment
deriving DecidableEq, Repr

/-- Insert a segment into an id-ordered list. -/
def insertSegById (s : Segment) : List Segment → List Segment
  | [] => [s]
  | t :: ts => if s.id ≤ t.id then s :: t :: ts else t :: insertSegById s ts

/-- Sort segments by id (ids are assigned monotonically, so id order is
creation order). -/
def sortSegsById : List Segment → List Segment
  | [] => []
  | s :: ss => insertSegById s (sortSegsById ss)

/-- Modelled from the spec: `Wal::new(dir)` (§4.2) — enumerate the existing
segment files, make them available as closed (in creation order), and open
a new segment whose id is `max_existing + 1` (0 for a fresh directory). -/
def Wal.new (disk : List Segment) : Wal :=
  { closed := sortSegsById disk
    openSeg :=
      { id := disk.foldl (fun a s => max a (s.id + 1)) 0
        records := [] } }

/-- Modelled from the spec: `WriteHandle::write_op` — append the framed
record to the open segment and return `{total_bytes, bytes_written}`
(`total_bytes` is the open segment file's size after the write,
`bytes_written` the record's on-disk size). -/
def Wal.writeOp (w : Wal) (r : WalRecord) : WriteSummary × Wal :=
  let seg : Segment := { w.openSeg with records := w.openSeg.records ++ [r] }
  ({ total_bytes := seg.size, bytes_written := r.diskSize },
    { w with openSeg := seg })

/-- Modelled from the spec: `ReadHandle::closed_segments` — descriptors of
the closed segments, ordered by creation. -/
def Wal.closedSegments (w : Wal) : List ClosedSegment :=
  w.closed.map fun s => { id := s.id, size := s.size }

/-- Modelled from the spec: `RotationHandle::rotate` — atomically swap the
open segment for a newly created one (next id) and return the just-closed
descriptor. -/
def Wal.rotate (w : Wal) : ClosedSegment × Wal :=
  ({ id := w.openSeg.id, size := w.openSeg.size },
    { closed := w.closed ++ [w.openSeg]
      openSeg := { id := w.openSeg.id + 1, records := [] } })

/-- Modelled from the spec: `RotationHandle::delete(id)` — remove a closed
segment file; fails if `id` is not a closed segment (still open or already
deleted). -/
def Wal.delete (w : Wal) (segId : Nat) : Except WalError Wal :=
  if (w.closed.map Segment.id).contains segId then
    .ok { w with closed := w.closed.filter fun s => s.id ≠ segId }
  else
    .error { code := 0 }

/-- Modelled from the spec: `ReadHandle::reader_for(id)` — the finite
forward-only stream of records of a closed segment, as the list it yields
before end-of-stream; `none` when no such closed segment exists. -/
def Wal.readerFor (w : Wal) (segId : Nat) : Option (List WalRecord) :=
  (w.closed.find? fun s => s.id == segId).map Segment.records

/-- The segment files on disk backing a WAL instance: every closed segment
plus the open one (dropping the instance leaves exactly these files for the
next instance to enumerate). -/
def Wal.disk (w : Wal) : List Segment := w.closed ++ [w.openSeg]

/-- Modelled from the spec: the replay routine's sequence tracking (§4.8,
`wal_replay.rs` is not among the extracted sources) — stream every closed
segment in creation order and track the maximum sequence number observed;
`none` when there are no records. -/
def Wal.replayMaxSequence (w : Wal) : Option Nat :=
  let seqs := (w.closed.flatMap Segment.records).map WalRecord.sequence_number
  match seqs with
  | [] => none
  | s :: ss => some (ss.foldl max s)

/-! ### Scenario fixtures (the end-to-end tests' inputs) -/

/-- S1 `crud`: the fresh WAL. -/
def crudW0 : Wal := Wal.new []

/-- S1: after appending the op with sequence 42. -/
def crudA1 : WriteSummary × Wal := crudW0.writeOp (e2eOp 42)

/-- S1: after appending the op with sequence 43. -/
def crudA2 : WriteSummary × Wal := crudA1.2.writeOp (e2eOp 43)

/-- S1: after rotating. -/
def crudR : ClosedSegment × Wal := crudA2.2.rotate

/-- S2 `replay`, instance A just before being dropped: append seq 42,
rotate, append seq 43. -/
def replayA : Wal :=
  ((((Wal.new []).writeOp (e2eOp 42)).2.rotate).2.writeOp (e2eOp 43)).2

/-- S2: instance B, opened on the directory instance A left behind. -/
def replayB : Wal := Wal.new replayA.disk

/-- S3 `ordering`, instance A just before being dropped: append seq 42,
rotate, append seq 43, rotate, append seq 44. -/
def orderingA : Wal :=
  ((((((Wal.new []).writeOp (e2eOp 42)).2.rotate).2.writeOp
      (e2eOp 43)).2.rotate).2.writeOp (e2eOp 44)).2

/-- S3: instance B, opened on the directory instance A left behind
(segments 0, 1 and 2 exist on disk). -/
def orderingB : Wal := Wal.new orderingA.disk

/-! ## Ingester initialisation (`src/ingester2/src/init.rs`, `new`) -/

/-- An opaque catalog error (`iox_catalog::interface::Error`). -/
structure CatalogError where
  code : Nat
deriving DecidableEq, Repr

/-- An opaque WAL replay error. -/
structure ReplayError where
  code : Nat
deriving DecidableEq, Repr

/-- `InitError` (init.rs lines 92-106): pre-warm failure, WAL
initialisation failure, or WAL replay failure. -/
inductive InitError
  | preWarmPartitions (e : CatalogError)
  | walInit (e : WalError)
  | walReplay (e : ReplayError)
deriving DecidableEq, Repr

/-- The components `init::new` constructs or spawns, in source order. -/
inductive Component
  | namespaceNameResolver
  | tableNameResolver
  | partitionCache
  | bufferTree
  | walHandle
  | persistWorkers
  | writePathWalSink
  | rotationTask
  | timestampOracle
deriving DecidableEq, Repr

/-- An observable step of `init::new`: a component coming up, or the
catalog being queried for the most recent partitions with a given limit. -/
inductive InitEvent
  | started (c : Component)
  | catalogMostRecentN (limit : Nat)
deriving DecidableEq, Repr

/-- The outcomes of the fallible external calls `init::new` performs,
injected so initialisation can be run against any environment: the catalog
pre-warm query (keyed by the limit passed), WAL opening, and WAL replay
(returning the maximum replayed sequence number, if any). -/
structure InitEffects where
  mostRecentN : Nat → Except CatalogError (List Nat)
  walInit : Except WalError Unit
  walReplay : Except ReplayError (Option Nat)

/-- `init::new` (init.rs lines 148-263), as a sequence of observable steps:
build the namespace and table name resolvers; query the catalog for the
40,000 most recent partitions (`most_recent_n(40_000, ..)`, lines 181-187)
— a failure aborts with `InitError::PreWarmPartitions` before anything else
happens; build the partition cache and buffer tree; initialise the WAL
(abort with `WalInit` on failure); replay it (abort with `WalReplay` on
failure); spawn the persist workers; build the `WalSink` write path; spawn
the rotation task; seed the timestamp oracle with the maximum replayed
sequence number, defaulting to 0 (lines 252-256). -/
def ingesterInit (fx : InitEffects) :
    Except InitError TimestampOracle × List InitEvent :=
  let ev1 : List InitEvent :=
    [.started .namespaceNameResolver, .started .tableNameResolver,
      .catalogMostRecentN 40000]
  match fx.mostRecentN 40000 with
  | .error e => (.error (InitError.preWarmPartitions e), ev1)
  | .ok _ =>
      let ev2 := ev1 ++ [.started .partitionCache, .started .bufferTree]
      match fx.walInit with
      | .error e => (.error (InitError.walInit e), ev2)
      | .ok _ =>
          let ev3 := ev2 ++ [.started .walHandle]
          match fx.walReplay with
          | .error e => (.error (InitError.walReplay e), ev3)
          | .ok maxSeq =>
              (.ok (TimestampOracle.new (maxSeq.getD 0)),
                ev3 ++ [.started .persistWorkers, .started .writePathWalSink,
                  .started .rotationTask, .started .timestampOracle])

/-! ## `PartitionResponse` (`src/ingester2/src/query/partition_response.rs`) -/

/-- `PartitionResponse` (partition_response.rs lines 9-18): the stream of
snapshots (opaque, hence a type parameter), the partition id, and the
maximum persisted sequence number.  `new` is the field-for-field
constructor (lines 31-41). -/
structure PartitionResponse (σ : Type) where
  batches : σ
  id : Nat
  max_persisted_sequence_number : Option Nat

/-- `PartitionResponse::new(batches, id, max_persisted_sequence_number)`. -/
def PartitionResponse.new {σ : Type} (batches : σ) (id : Nat)
    (max_persisted_sequence_number : Option Nat) : PartitionResponse σ :=
  { batches := batches, id := id
    max_persisted_sequence_number := max_persisted_sequence_number }

/-- `into_record_batch_stream` (lines 51-53): consumes the response and
returns its stream of batches. -/
def PartitionResponse.into_record_batch_stream {σ : Type}
    (p : PartitionResponse σ) : σ :=
  p.batches

end Iox

namespace Iox

/-- C1: in `WalSink::apply` the WAL append happens before the inner sink is
invoked (the successful trace is append-then-inner), and a WAL append error
is returned to the caller as that failure with the inner sink never invoked
(empty effect trace: the buffer is untouched). -/
theorem walSink_append_before_inner (walB : DmlOperation → Except WalError Unit)
    (innerB : DmlOperation → Except BufferError Unit) (op : DmlOperation) :
    (∀ e, walB op = .error e →
      WalSink.apply walB innerB op =
        { result := .error (DmlError.wal e), events := [] }) ∧
    (walB op = .ok () →
      (WalSink.apply walB innerB op).events = [.walAppendOk op, .innerApply op]) := by
  constructor
  · intro e h
    simp [WalSink.apply, h]
  · intro h
    simp [WalSink.apply, h]

/-- Witness for C1: a WAL that rejects every append makes `WalSink::apply`
return the mapped failure with an empty effect trace. -/
theorem walSink_append_before_inner_witness :
    WalSink.apply (fun _ => Except.error walErr0) (fun _ => Except.ok ()) opW0 =
      { result := .error (DmlError.wal walErr0), events := [] } :=
  (walSink_append_before_inner (fun _ => Except.error walErr0)
    (fun _ => Except.ok ()) opW0).1 walErr0 rfl

/-- C2 counterexample: with a WAL that accepts the append and an inner sink
that fails, `WalSink::apply` does NOT report success to the caller — the
inner failure is surfaced (wal_sink.rs line 55 maps and returns it), so the
claim that the caller still receives durable success is false. -/
theorem walSink_buffer_error_not_swallowed_cex :
    (WalSink.apply (fun _ => Except.ok ()) (fun _ => Except.error bufErr0) opW0).result
      ≠ Except.ok () := by
  decide

/-- C2 amended: after a successful WAL append, a failure of the inner buffer
apply IS surfaced to the caller, converted into a `DmlError` via
`map_err(Into::into)`; the op has nevertheless been appended to the WAL
(the effect trace contains the completed append). -/
theorem walSink_buffer_error_surfaced (walB : DmlOperation → Except WalError Unit)
    (innerB : DmlOperation → Except BufferError Unit) (op : DmlOperation)
    (e : BufferError) (hw : walB op = .ok ()) (hb : innerB op = .error e) :
    WalSink.apply walB innerB op =
      { result := .error (DmlError.buffer e)
        events := [.walAppendOk op, .innerApply op] } := by
  simp [WalSink.apply, hw, hb, Except.mapError]

/-- Witness for the amended C2: concrete accepting WAL, concrete failing
inner sink. -/
theorem walSink_buffer_error_surfaced_witness :
    WalSink.apply (fun _ => Except.ok ()) (fun _ => Except.error bufErr0) opW0 =
      { result := .error (DmlError.buffer bufErr0)
        events := [.walAppendOk opW0, .innerApply opW0] } :=
  walSink_buffer_error_surfaced (fun _ => Except.ok ())
    (fun _ => Except.error bufErr0) opW0 bufErr0 rfl rfl

/-- C3 (code bug, wal_sink.rs lines 39-56 and the TODO at lines 40-49):
cancelling the caller's future immediately after the WAL append completes
abandons the rest of the method body, so the inner buffer apply never runs
— evaluated here at a concrete input: the trace holds the completed append
and no inner-apply event, contradicting the required cancellation safety. -/
theorem walSink_cancellation_drops_buffer_apply :
    WalSink.applyCancellable (fun _ => Except.ok ()) (fun _ => Except.ok ()) opW0
        Cancellation.afterAppend = ([Event.walAppendOk opW0], none) ∧
    Event.innerApply opW0 ∉
      (WalSink.applyCancellable (fun _ => Except.ok ()) (fun _ => Except.ok ()) opW0
        Cancellation.afterAppend).1 := by
  decide

/-- C9: the `WalAppender` implementation on `wal::WalWriter` encodes only
write operations into WAL records — every record it submits comes from a
write via `encode_write` — and a delete operation makes it panic (the
`unreachable!()` arm, or the unsequenced `expect` first), never submitting
a record. -/
theorem walAppender_encodes_only_writes :
    (∀ (op : DmlOperation) (rec : SequencedWalOp),
        WalWriter.append op = .ok rec →
          ∃ w, op = .write w ∧
            rec.op = .write (encode_write w.namespaceId w)) ∧
    (∀ d : DmlDelete, (WalWriter.append (.delete d)).isPanicked = true) := by
  constructor
  · intro op rec h
    cases op with
    | write w =>
        refine ⟨w, rfl, ?_⟩
        revert h
        cases hs : w.meta.sequence with
        | none =>
            intro h
            simp [WalWriter.append, DmlOperation.meta, hs] at h
        | some n =>
            intro h
            simp [WalWriter.append, DmlOperation.meta, DmlOperation.namespaceId, hs] at h
            simp [← h]
    | delete d =>
        exfalso
        revert h
        cases hs : d.meta.sequence <;>
          simp [WalWriter.append, DmlOperation.meta, hs]
  · intro d
    cases hs : d.meta.sequence <;>
      simp [WalWriter.append, DmlOperation.meta, hs, AppendOutcome.isPanicked]

/-- Witness for C9: the concrete sequenced write `opW0` is accepted and
encoded; a concrete delete panics. -/
theorem walAppender_encodes_only_writes_witness :
    (∃ w, opW0 = DmlOperation.write w ∧
        (SequencedWalOp.mk 7 (.write { databaseId := 42, payload := 0 })).op =
          WalOp.write (encode_write w.namespaceId w)) ∧
    (WalWriter.append
        (.delete { namespaceId := 1, meta := { sequence := some 5 }, payload := 2 })).isPanicked
      = true :=
  ⟨walAppender_encodes_only_writes.1 opW0
      (SequencedWalOp.mk 7 (.write { databaseId := 42, payload := 0 })) rfl,
    walAppender_encodes_only_writes.2
      { namespaceId := 1, meta := { sequence := some 5 }, payload := 2 }⟩

/-- C7: an op entering the apply chain with an unset sequence number is
assigned a fresh number from the Timestamp Oracle (`C1.next()`, i.e. the
oracle's counter + 1) before the WAL append, and the subsequent
`WalAppender::append` then succeeds (no unsequenced panic), submitting a
record carrying exactly that fresh sequence number. -/
theorem applyChain_assigns_sequence_before_append (o : TimestampOracle)
    (w : DmlWrite) (h : w.meta.sequence = none) :
    ((applyChainAssign o (.write w)).1).meta.sequence = some (o.counter + 1) ∧
    WalWriter.append (applyChainAssign o (.write w)).1 =
      .ok { sequence_number := o.counter + 1
            op := .write (encode_write w.namespaceId w) } := by
  simp [applyChainAssign, DmlOperation.meta, h, DmlOperation.withSequence,
    TimestampOracle.next, WalWriter.append, DmlOperation.namespaceId, encode_write]

/-- Witness for C7: an oracle at 43 assigns 44 to a concrete unsequenced
write, which then appends successfully. -/
theorem applyChain_assigns_sequence_before_append_witness :
    ((applyChainAssign (TimestampOracle.mk 43)
        (.write { namespaceId := 42, meta := { sequence := none }, payload := 0 })).1).meta.sequence
      = some 44 ∧
    WalWriter.append (applyChainAssign (TimestampOracle.mk 43)
        (.write { namespaceId := 42, meta := { sequence := none }, payload := 0 })).1 =
      .ok { sequence_number := 44
            op := .write (encode_write 42
              { namespaceId := 42, meta := { sequence := none }, payload := 0 }) } :=
  applyChain_assigns_sequence_before_append (TimestampOracle.mk 43)
    { namespaceId := 42, meta := { sequence := none }, payload := 0 } rfl

/-- C4 (scenario S1, the `crud` end-to-end test): a fresh WAL has no closed
segments; appending seq 42 of `m1,t=foo v=1i 1` returns
`(total_bytes = 122, bytes_written = 106)`; appending seq 43 returns
`(total_bytes = 228, bytes_written = 106)`; still no closed segments;
`rotate` returns a closed segment of size 228; `closed_segments` then holds
exactly that id; the reader yields seq 42 then seq 43 then end; after
`delete(id)` the closed segments are empty again. -/
theorem wal_crud_round_trip :
    crudW0.closedSegments = [] ∧
    crudA1.1 = { total_bytes := 122, bytes_written := 106 } ∧
    crudA2.1 = { total_bytes := 228, bytes_written := 106 } ∧
    crudA2.2.closedSegments = [] ∧
    crudR.1.size = 228 ∧
    crudR.2.closedSegments = [{ id := crudR.1.id, size := 228 }] ∧
    crudR.2.readerFor crudR.1.id = some [e2eOp 42, e2eOp 43] ∧
    (crudR.2.delete crudR.1.id).map Wal.closedSegments = .ok [] := by
  decide

/-- C5 (scenario S2, the `replay` end-to-end test): after instance A
appends seq 42, rotates, appends seq 43 and is dropped, instance B on the
same directory reports two closed segments in creation order; the first
segment's reader yields seq 42, the second's yields seq 43; replay observes
maximum sequence 43, and the Timestamp Oracle seeded with it (with the
`unwrap_or(0)` default of init.rs) returns 44 from its next call. -/
theorem wal_replay_across_restart :
    replayB.closedSegments.length = 2 ∧
    replayB.closedSegments.map ClosedSegment.id = [0, 1] ∧
    replayB.readerFor 0 = some [e2eOp 42] ∧
    replayB.readerFor 1 = some [e2eOp 43] ∧
    replayB.replayMaxSequence = some 43 ∧
    (TimestampOracle.new (replayB.replayMaxSequence.getD 0)).next.1 = 44 := by
  decide

/-- C6 (scenario S3, the `ordering` end-to-end test): opened on a directory
holding segments 0, 1 and 2, the WAL lists those ids as closed in creation
order, its newly opened segment has id `max_existing + 1 = 3`, and two
rotations return closed segments with ids 3 and then 4. -/
theorem wal_monotone_segment_ids :
    orderingB.closedSegments.map ClosedSegment.id = [0, 1, 2] ∧
    orderingA.disk.map Segment.id = [0, 1, 2] ∧
    orderingB.openSeg.id = 3 ∧
    orderingB.rotate.1.id = 3 ∧
    orderingB.rotate.2.rotate.1.id = 4 := by
  decide

/-- C8: during initialisation the partition cache pre-warm queries the
catalog for the 40,000 most recent partitions, and if that query fails,
`init::new` aborts with `InitError::PreWarmPartitions` — the observable
steps are exactly the two name resolvers and the failed catalog query, so
no WAL or write-path component has been started. -/
theorem init_prewarm_failure_aborts_before_wal (fx : InitEffects)
    (e : CatalogError) (h : fx.mostRecentN 40000 = .error e) :
    (ingesterInit fx).1 = .error (InitError.preWarmPartitions e) ∧
    (ingesterInit fx).2 =
      [.started .namespaceNameResolver, .started .tableNameResolver,
        .catalogMostRecentN 40000] ∧
    InitEvent.started .walHandle ∉ (ingesterInit fx).2 ∧
    InitEvent.started .writePathWalSink ∉ (ingesterInit fx).2 := by
  refine ⟨?_, ?_, ?_, ?_⟩ <;> simp [ingesterInit, h]

/-- Witness for C8: a catalog whose most-recent-partitions query fails with
a concrete error aborts a concrete initialisation. -/
theorem init_prewarm_failure_aborts_before_wal_witness :
    (ingesterInit
        { mostRecentN := fun _ => Except.error { code := 5 }
          walInit := Except.ok ()
          walReplay := Except.ok none }).1 =
      .error (InitError.preWarmPartitions { code := 5 }) ∧
    (ingesterInit
        { mostRecentN := fun _ => Except.error { code := 5 }
          walInit := Except.ok ()
          walReplay := Except.ok none }).2 =
      [.started .namespaceNameResolver, .started .tableNameResolver,
        .catalogMostRecentN 40000] ∧
    InitEvent.started .walHandle ∉ (ingesterInit
        { mostRecentN := fun _ => Except.error { code := 5 }
          walInit := Except.ok ()
          walReplay := Except.ok none }).2 ∧
    InitEvent.started .writePathWalSink ∉ (ingesterInit
        { mostRecentN := fun _ => Except.error { code := 5 }
          walInit := Except.ok ()
          walReplay := Except.ok none }).2 :=
  init_prewarm_failure_aborts_before_wal
    { mostRecentN := fun _ => Except.error { code := 5 }
      walInit := Except.ok ()
      walReplay := Except.ok none } { code := 5 } rfl

/-- C10: `PartitionResponse::new(b, i, m)` builds the value whose `id()` is
exactly `i`, whose `max_persisted_sequence_number()` is exactly `m`, and
whose `into_record_batch_stream()` is exactly `b`; the constructed value is
precisely the record of the three fields, so no accessor alters anything. -/
theorem partitionResponse_new_accessors {σ : Type} (b : σ) (i : Nat)
    (m : Option Nat) :
    (PartitionResponse.new b i m).id = i ∧
    (PartitionResponse.new b i m).max_persisted_sequence_number = m ∧
    (PartitionResponse.new b i m).into_record_batch_stream = b ∧
    PartitionResponse.new b i m =
      { batches := b, id := i, max_persisted_sequence_number := m } :=
  ⟨rfl, rfl, rfl, rfl⟩

end Iox
